import Mathlib

/-!
Shallow embedding of the freshpy HTTP request layer
(src/freshpy/api.py and src/freshpy/core.py).

The transport (the requests library) is modelled by an environment
mapping each attempt index to the outcome of the GET call on that
attempt: either an exception, identified by the name of its type and
its message, or a completed HTTP response.  Response bodies are
modelled by the outcome of calling .json() on the response: either a
decoded JSON value or a decode-error message.  Writes to the
diagnostic sink (errors.handlers.eprint) are collected in a list of
strings.  Exceptions raised by the Python code are modelled with
Except.
-/

namespace FreshPy

/-- A JSON-like value, the result of decoding a response body. -/
inductive JVal where
  | null
  | bool (b : Bool)
  | nat (n : Nat)
  | str (s : String)
  | arr (xs : List JVal)
  | obj (fields : List (String × JVal))


/-- An HTTP response as seen by get_request_with_retries: its status
code, and the outcome of calling .json() on it (a decoded value, or
the message of the exception the decode raised). -/
structure Response where
  status_code : Nat
  jsonBody : Except String JVal


/-- The outcome of one call to requests.get: either an exception
(given by the name of its type and its message) or a response. -/
inductive AttemptOutcome where
  | exc (name msg : String)
  | resp (r : Response)


/-- The exceptions the embedded code can raise: MissingRequiredDataError
(core.py), APIConnectionError (_raise_exception_for_repeated_timeouts),
RuntimeError (_report_failed_attempt), and the NameError raised by the
429 branch of get_request_with_retries where it reads the undefined
variable named by the payload. -/
inductive FreshError where
  | missingRequiredData (value : String)
  | apiConnectionError (msg : String)
  | runtimeError (msg : String)
  | nameError (undefinedName : String)


/-- The value get_request_with_retries returns: the raw response
object (when return_json is false) or a JSON value (the decoded body
or one of the two synthetic envelopes). -/
inductive GetResult where
  | raw (r : Response)
  | json (v : JVal)


/-- Boolean test that the second list is a prefix of the first
(hay, needle order is needle-first in the match). -/
def startsWithChars : List Char → List Char → Bool
  | [], _ => true
  | _ :: _, [] => false
  | a :: as, b :: bs => a == b && startsWithChars as bs

/-- Boolean substring test on character lists: needle occurs
somewhere in hay. -/
def containsChars : List Char → List Char → Bool
  | [], needle => startsWithChars needle []
  | b :: t, needle => startsWithChars needle (b :: t) || containsChars t needle

/-- Embedding of the Python membership test needle in hay on strings. -/
def str_contains (hay needle : String) : Bool :=
  containsChars hay.toList needle.toList

/-- Embedding of the Python str.lower method (adequate for the ASCII
exception type names involved). -/
def str_lower (s : String) : String := ⟨s.toList.map Char.toLower⟩

/-- Embedding of the Python str.upper method. -/
def str_upper (s : String) : String := ⟨s.toList.map Char.toUpper⟩

/-- Embedding of the Python str.startswith method. -/
def str_starts_with (s p : String) : Bool := startsWithChars p.toList s.toList

/-- Embedding of the Python str.endswith method. -/
def str_ends_with (s p : String) : Bool :=
  startsWithChars p.toList.reverse s.toList.reverse

/-- Embedding of the Python slice s[:-1], dropping the last character. -/
def str_drop_last (s : String) : String := ⟨s.toList.dropLast⟩

/-- Embedding of the connection-classification test in
_report_failed_attempt: "connect" in _exc_name.lower(). -/
def connection_class (exc_name : String) : Bool :=
  str_contains (str_lower exc_name) "connect"

/-- Embedding of _report_failed_attempt (api.py).  Raises RuntimeError
when the exception type name does not contain "connect"; otherwise
returns the string written to the diagnostic sink via eprint. -/
def report_failed_attempt (exc_name exc_msg request_type : String) (retries : Nat) :
    Except FreshError String :=
  if connection_class exc_name = false then
    .error (.runtimeError (exc_name ++ ": " ++ exc_msg))
  else
    let current_attempt := "(Attempt " ++ toString retries ++ " of 5)"
    let error_msg :=
      "The " ++ str_upper request_type ++ " request has failed with the following exception: "
        ++ exc_name ++ ": " ++ exc_msg ++ " " ++ current_attempt
    .ok (error_msg ++ "\n" ++ exc_name ++ ": " ++ exc_msg ++ "\n")

/-- The message of _raise_exception_for_repeated_timeouts (api.py). -/
def repeated_timeouts_msg : String :=
  "The script was unable to complete successfully after five consecutive API timeouts. "
    ++ "Please run the script again or contact Freshservice Support for further assistance."

/-- The retry loop of get_request_with_retries: while retries <= 5,
issue the GET; on a response, break; on an exception, report the
failed attempt (which itself raises for non-connection exceptions) and
increment retries.  When the loop exits with retries = 6,
_raise_exception_for_repeated_timeouts raises APIConnectionError.
The recursion is structural on the remaining iteration budget
6 - retries; the loop is entered with budget 6 and retries 0.
Returns the diagnostic-sink writes together with the response or the
raised exception. -/
def run_attempts (env : Nat → AttemptOutcome) :
    Nat → Nat → List String × Except FreshError Response
  | 0, _ => ([], .error (.apiConnectionError repeated_timeouts_msg))
  | budget + 1, retries =>
    match env retries with
    | .resp r => ([], .ok r)
    | .exc name msg =>
      match report_failed_attempt name msg "get" retries with
      | .error e => ([], .error e)
      | .ok rep =>
        match run_attempts env budget (retries + 1) with
        | (reps, res) => (rep :: reps, res)

/-- The synthetic envelope returned for a 404 response. -/
def not_found_envelope : JVal :=
  .obj [("status", .str "error"), ("status_code", .nat 404),
        ("error_message", .str "Data not found")]

/-- The synthetic envelope returned when decoding the body raises. -/
def decode_failure_envelope (msg : String) : JVal :=
  .obj [("status", .str "exception"), ("status_code", .null),
        ("error_message", .str msg)]

/-- The post-loop normalization in get_request_with_retries applied to
the response that broke the loop.  When return_json is true, a 429
status enters the backoff branch, whose first statement reads the
undefined variable i (delay = (5**i) + ...), raising NameError before
any delay or decode happens; a 404 status yields the synthetic
not-found envelope; otherwise .json() is attempted and a decode
failure yields the synthetic exception envelope.  When return_json is
false the raw response is returned unchanged. -/
def process_response (response : Response) (return_json : Bool) :
    Except FreshError GetResult :=
  if return_json then
    if response.status_code = 429 then
      .error (.nameError "i")
    else if response.status_code = 404 then
      .ok (.json not_found_envelope)
    else
      match response.jsonBody with
      | .ok v => .ok (.json v)
      | .error msg => .ok (.json (decode_failure_envelope msg))
  else
    .ok (.raw response)

/-- Embedding of get_request_with_retries (api.py): run the retry loop
from retries = 0, then normalize the obtained response.  The first
component collects the diagnostic-sink writes; the second is the
returned value or the raised exception. -/
def get_request_with_retries (env : Nat → AttemptOutcome) (return_json : Bool) :
    List String × Except FreshError GetResult :=
  match run_attempts env 6 0 with
  | (reps, .error e) => (reps, .error e)
  | (reps, .ok response) => (reps, process_response response return_json)

/-- Attempt j of the environment is an exception whose type name
classifies as connection-class. -/
def connect_exc_at (env : Nat → AttemptOutcome) (j : Nat) : Prop :=
  ∃ name msg, env j = .exc name msg ∧ connection_class name = true

/-- The fields of a constructed FreshPy object that the request layer
uses (core.py FreshPy.__init__). -/
structure FreshPyObj where
  domain : String
  base_url : String
  api_key : String


/-- Python truthiness of an optional string argument. -/
def truthy : Option String → Bool
  | none => false
  | some s => !s.toList.isEmpty

/-- Embedding of FreshPy.__init__ (core.py): raise
MissingRequiredDataError("init") when domain or api_key is absent;
otherwise prefix "https://" when the domain is truthy and does not
start with "http", strip one trailing "/" when present, and append
"/api/v2/" to form base_url. -/
def freshpy_init (domain api_key : Option String) : Except FreshError FreshPyObj :=
  if !truthy domain || !truthy api_key then
    .error (.missingRequiredData "init")
  else
    let d0 := domain.getD ""
    let d1 := if !d0.toList.isEmpty && !(str_starts_with d0 "http") then "https://" ++ d0 else d0
    let d2 := if str_ends_with d1 "/" then str_drop_last d1 else d1
    .ok { domain := d2, base_url := d2 ++ "/api/v2/", api_key := api_key.getD "" }

/-- Address normalization as the specification words it: prefix a
default transport scheme if missing, then strip exactly one trailing
path separator if present. -/
def spec_normalize_address (addr : String) : String :=
  let withScheme := if str_starts_with addr "http" then addr else "https://" ++ addr
  if str_ends_with withScheme "/" then str_drop_last withScheme else withScheme

/-! Helper lemmas about the substring test. -/

lemma startsWithChars_self_append (n b : List Char) :
    startsWithChars n (n ++ b) = true := by
  induction n with
  | nil => rfl
  | cons a as ih => simp [startsWithChars, ih]

lemma startsWithChars_refl (n : List Char) :
    startsWithChars n n = true := by
  induction n with
  | nil => rfl
  | cons a as ih => simp [startsWithChars, ih]

lemma startsWithChars_append_hay (n : List Char) :
    ∀ (xs ys : List Char), startsWithChars n xs = true →
      startsWithChars n (xs ++ ys) = true := by
  induction n with
  | nil => intro xs ys _; rfl
  | cons a as ih =>
    intro xs ys h
    cases xs with
    | nil => simp [startsWithChars] at h
    | cons b bs =>
      simp only [startsWithChars, Bool.and_eq_true] at h
      simp only [List.cons_append, startsWithChars, Bool.and_eq_true]
      exact ⟨h.1, ih bs ys h.2⟩

lemma containsChars_append_left (n : List Char) :
    ∀ (xs ys : List Char), containsChars xs n = true →
      containsChars (xs ++ ys) n = true := by
  intro xs
  induction xs with
  | nil =>
    intro ys h
    cases n with
    | nil =>
      cases ys with
      | nil => rfl
      | cons c t => simp [containsChars, startsWithChars]
    | cons a as => simp [containsChars, startsWithChars] at h
  | cons x t ih =>
    intro ys h
    simp only [containsChars, Bool.or_eq_true] at h
    rcases h with h | h
    · simp only [List.cons_append, containsChars, Bool.or_eq_true]
      exact Or.inl (startsWithChars_append_hay n (x :: t) ys h)
    · simp only [List.cons_append, containsChars, Bool.or_eq_true]
      exact Or.inr (ih ys h)

lemma containsChars_append_right (n : List Char) :
    ∀ (xs ys : List Char), containsChars ys n = true →
      containsChars (xs ++ ys) n = true := by
  intro xs
  induction xs with
  | nil => intro ys h; exact h
  | cons x t ih =>
    intro ys h
    simp only [List.cons_append, containsChars, Bool.or_eq_true]
    exact Or.inr (ih ys h)

lemma containsChars_refl (n : List Char) :
    containsChars n n = true := by
  cases n with
  | nil => rfl
  | cons a as => simp [containsChars, startsWithChars_refl]

lemma str_toList_append (a b : String) :
    (a ++ b).toList = a.toList ++ b.toList :=
  String.data_append a b

lemma str_contains_append_left (x y n : String)
    (h : str_contains x n = true) : str_contains (x ++ y) n = true := by
  unfold str_contains at h ⊢
  rw [str_toList_append]
  exact containsChars_append_left n.toList x.toList y.toList h

lemma str_contains_append_right (x y n : String)
    (h : str_contains y n = true) : str_contains (x ++ y) n = true := by
  unfold str_contains at h ⊢
  rw [str_toList_append]
  exact containsChars_append_right n.toList x.toList y.toList h

lemma str_contains_refl (n : String) : str_contains n n = true :=
  containsChars_refl n.toList

/-! Helper lemmas characterizing the retry loop. -/

lemma report_ok_of_connect (name msg rt : String) (retries : Nat)
    (h : connection_class name = true) :
    report_failed_attempt name msg rt retries =
      .ok ("The " ++ str_upper rt ++ " request has failed with the following exception: "
        ++ name ++ ": " ++ msg ++ " " ++ ("(Attempt " ++ toString retries ++ " of 5)")
        ++ "\n" ++ name ++ ": " ++ msg ++ "\n") := by
  simp [report_failed_attempt, h]

lemma run_attempts_succ (env : Nat → AttemptOutcome) (r : Response) :
    ∀ (n s budget : Nat), n < budget →
      (∀ j, j < n → connect_exc_at env (s + j)) →
      env (s + n) = .resp r →
      (run_attempts env budget s).2 = .ok r ∧
        (run_attempts env budget s).1.length = n := by
  intro n
  induction n with
  | zero =>
    intro s budget hb hfail hsucc
    match budget, hb with
    | budget + 1, _ =>
      rw [Nat.add_zero] at hsucc
      simp [run_attempts, hsucc]
  | succ n ih =>
    intro s budget hb hfail hsucc
    match budget, hb with
    | budget + 1, hb =>
      obtain ⟨name, msg, hexc, hconn⟩ := hfail 0 (Nat.succ_pos n)
      rw [Nat.add_zero] at hexc
      have hfail' : ∀ j, j < n → connect_exc_at env ((s + 1) + j) := by
        intro j hj
        have := hfail (j + 1) (Nat.succ_lt_succ hj)
        rwa [show s + (j + 1) = (s + 1) + j by omega] at this
      have hsucc' : env ((s + 1) + n) = .resp r := by
        rwa [show (s + 1) + n = s + (n + 1) by omega]
      have ih' := ih (s + 1) budget (Nat.lt_of_succ_lt_succ hb) hfail' hsucc'
      simp [run_attempts, hexc, report_ok_of_connect name msg "get" s hconn, ih'.1, ih'.2]

lemma run_attempts_all_fail (env : Nat → AttemptOutcome) :
    ∀ (budget s : Nat),
      (∀ j, j < budget → connect_exc_at env (s + j)) →
      (run_attempts env budget s).2 = .error (.apiConnectionError repeated_timeouts_msg) ∧
        (run_attempts env budget s).1.length = budget := by
  intro budget
  induction budget with
  | zero => intro s _; simp [run_attempts]
  | succ budget ih =>
    intro s hfail
    obtain ⟨name, msg, hexc, hconn⟩ := hfail 0 (Nat.succ_pos budget)
    rw [Nat.add_zero] at hexc
    have hfail' : ∀ j, j < budget → connect_exc_at env ((s + 1) + j) := by
      intro j hj
      have := hfail (j + 1) (Nat.succ_lt_succ hj)
      rwa [show s + (j + 1) = (s + 1) + j by omega] at this
    have ih' := ih (s + 1) hfail'
    simp [run_attempts, hexc, report_ok_of_connect name msg "get" s hconn, ih'.1, ih'.2]

lemma run_attempts_nonconnect (env : Nat → AttemptOutcome) (name msg : String) :
    ∀ (n s budget : Nat), n < budget →
      (∀ j, j < n → connect_exc_at env (s + j)) →
      env (s + n) = .exc name msg →
      connection_class name = false →
      (run_attempts env budget s).2 = .error (.runtimeError (name ++ ": " ++ msg)) ∧
        (run_attempts env budget s).1.length = n := by
  intro n
  induction n with
  | zero =>
    intro s budget hb hfail hexc hnc
    match budget, hb with
    | budget + 1, _ =>
      rw [Nat.add_zero] at hexc
      simp [run_attempts, hexc, report_failed_attempt, hnc]
  | succ n ih =>
    intro s budget hb hfail hexc hnc
    match budget, hb with
    | budget + 1, hb =>
      obtain ⟨cname, cmsg, hcexc, hcconn⟩ := hfail 0 (Nat.succ_pos n)
      rw [Nat.add_zero] at hcexc
      have hfail' : ∀ j, j < n → connect_exc_at env ((s + 1) + j) := by
        intro j hj
        have := hfail (j + 1) (Nat.succ_lt_succ hj)
        rwa [show s + (j + 1) = (s + 1) + j by omega] at this
      have hexc' : env ((s + 1) + n) = .exc name msg := by
        rwa [show (s + 1) + n = s + (n + 1) by omega]
      have ih' := ih (s + 1) budget (Nat.lt_of_succ_lt_succ hb) hfail' hexc' hnc
      simp [run_attempts, hcexc, report_ok_of_connect cname cmsg "get" s hcconn, ih'.1, ih'.2]

lemma run_attempts_ext (env env' : Nat → AttemptOutcome) :
    ∀ (budget s : Nat),
      (∀ j, s ≤ j → j < s + budget → env' j = env j) →
      run_attempts env' budget s = run_attempts env budget s := by
  intro budget
  induction budget with
  | zero => intro s _; rfl
  | succ budget ih =>
    intro s hagree
    have h0 : env' s = env s := hagree s (Nat.le_refl s) (by omega)
    have ih' : run_attempts env' budget (s + 1) = run_attempts env budget (s + 1) := by
      apply ih
      intro j h1 h2
      exact hagree j (by omega) (by omega)
    simp only [run_attempts, h0, ih']

lemma run_attempts_report (env : Nat → AttemptOutcome) :
    ∀ (budget s j : Nat) (rep : String),
      ((run_attempts env budget s).1).get? j = some rep →
      str_contains rep ("(Attempt " ++ toString (s + j) ++ " of 5)") = true := by
  intro budget
  induction budget with
  | zero => intro s j rep h; simp [run_attempts] at h
  | succ budget ih =>
    intro s j rep h
    rcases henv : env s with ⟨name, msg⟩ | r
    · rcases hconn : connection_class name with _ | _
      · rw [run_attempts] at h
        simp [henv, report_failed_attempt, hconn] at h
      · rw [run_attempts] at h
        simp only [henv, report_ok_of_connect name msg "get" s hconn] at h
        cases j with
        | zero =>
          simp only [List.get?, Option.some.injEq] at h
          rw [Nat.add_zero, ← h]
          exact str_contains_append_left _ _ _ (str_contains_append_left _ _ _
            (str_contains_append_left _ _ _ (str_contains_append_left _ _ _
              (str_contains_append_left _ _ _ (str_contains_append_right _ _ _
                (str_contains_refl _))))))
        | succ j =>
          simp only [List.get?] at h
          have := ih (s + 1) j rep h
          rwa [show (s + 1) + j = s + (j + 1) by omega] at this
    · rw [run_attempts] at h
      simp [henv] at h

lemma get_eq_of_run_ok (env : Nat → AttemptOutcome) (rj : Bool) (r : Response)
    (h : (run_attempts env 6 0).2 = .ok r) :
    get_request_with_retries env rj =
      ((run_attempts env 6 0).1, process_response r rj) := by
  unfold get_request_with_retries
  rcases hE : run_attempts env 6 0 with ⟨reps, res⟩
  rw [hE] at h
  simp only [Prod.snd] at h
  subst h
  rfl

lemma get_eq_of_run_error (env : Nat → AttemptOutcome) (rj : Bool) (e : FreshError)
    (h : (run_attempts env 6 0).2 = .error e) :
    get_request_with_retries env rj = ((run_attempts env 6 0).1, .error e) := by
  unfold get_request_with_retries
  rcases hE : run_attempts env 6 0 with ⟨reps, res⟩
  rw [hE] at h
  simp only [Prod.snd] at h
  subst h
  rfl

lemma get_fst (env : Nat → AttemptOutcome) (rj : Bool) :
    (get_request_with_retries env rj).1 = (run_attempts env 6 0).1 := by
  unfold get_request_with_retries
  rcases hE : run_attempts env 6 0 with ⟨reps, res⟩
  cases res <;> rfl

/-- C1: if the first k GET attempts (0 ≤ k ≤ 5) fail with
connection-class transport errors and attempt k+1 completes at the
transport level, get_request_with_retries breaks out of the retry
loop, returns the post-loop normalization of that successful response,
and reports exactly k failed attempts to the diagnostic sink. -/
theorem C1_retries_then_success (env : Nat → AttemptOutcome) (k : Nat) (r : Response)
    (return_json : Bool) (hk : k ≤ 5)
    (hfail : ∀ j, j < k → connect_exc_at env j)
    (hsucc : env k = .resp r) :
    (get_request_with_retries env return_json).2 = process_response r return_json ∧
      (get_request_with_retries env return_json).1.length = k := by
  obtain ⟨h2, h1⟩ := run_attempts_succ env r k 0 6 (by omega)
    (fun j hj => by simpa using hfail j hj) (by simpa using hsucc)
  rw [get_eq_of_run_ok env return_json r h2]
  exact ⟨rfl, h1⟩

/-- C1 witness: two connection failures followed by a 200 response. -/
def envC1 : Nat → AttemptOutcome := fun n =>
  if n < 2 then .exc "ConnectionError" "boom" else .resp ⟨200, .ok (.str "ok")⟩

theorem C1_retries_then_success_witness :
    connect_exc_at envC1 0 ∧ connect_exc_at envC1 1 ∧ envC1 2 = .resp ⟨200, .ok (.str "ok")⟩ ∧
      (get_request_with_retries envC1 true).2 = .ok (.json (.str "ok")) ∧
      (get_request_with_retries envC1 true).1.length = 2 := by
  have h := C1_retries_then_success envC1 2 ⟨200, .ok (.str "ok")⟩ true (by omega)
    (fun j hj => by
      interval_cases j <;> exact ⟨"ConnectionError", "boom", rfl, by decide⟩)
    rfl
  exact ⟨⟨"ConnectionError", "boom", rfl, by decide⟩,
    ⟨"ConnectionError", "boom", rfl, by decide⟩, rfl, h.1, h.2⟩

/-- C2: if every attempt fails with a connection-class transport
error, get_request_with_retries reports exactly 6 failed attempts (the
initial attempt plus 5 retries), raises APIConnectionError with the
remediation message, and consults no attempt beyond the sixth. -/
theorem C2_exhausted_retries (env : Nat → AttemptOutcome) (return_json : Bool)
    (hfail : ∀ j, j ≤ 5 → connect_exc_at env j) :
    (get_request_with_retries env return_json).2 =
      .error (.apiConnectionError ("The script was unable to complete successfully after five consecutive API timeouts. Please run the script again or contact Freshservice Support for further assistance."))
    ∧ (get_request_with_retries env return_json).1.length = 6
    ∧ ∀ env' : Nat → AttemptOutcome, (∀ j, j ≤ 5 → env' j = env j) →
        get_request_with_retries env' return_json = get_request_with_retries env return_json := by
  have hmsg : repeated_timeouts_msg = "The script was unable to complete successfully after five consecutive API timeouts. Please run the script again or contact Freshservice Support for further assistance." := rfl
  obtain ⟨h2, h1⟩ := run_attempts_all_fail env 6 0
    (fun j hj => by simpa using hfail j (by omega))
  refine ⟨?e1, ?e2, ?next⟩
  case e1 => rw [get_eq_of_run_error env return_json _ h2]; simp [hmsg]
  case e2 => rw [get_eq_of_run_error env return_json _ h2]; simpa using h1
  case next =>
    intro env' hagree
    unfold get_request_with_retries
    rw [run_attempts_ext env env' 6 0 (fun j ha hb => hagree j (by omega))]

/-- C2 witness: every attempt raises ConnectionError. -/
def envC2 : Nat → AttemptOutcome := fun _ => .exc "ConnectionError" "boom"

theorem C2_exhausted_retries_witness :
    connect_exc_at envC2 0 ∧ connect_exc_at envC2 5 ∧
      (get_request_with_retries envC2 true).2 =
        .error (.apiConnectionError ("The script was unable to complete successfully after five consecutive API timeouts. Please run the script again or contact Freshservice Support for further assistance."))
      ∧ (get_request_with_retries envC2 true).1.length = 6 := by
  have h := C2_exhausted_retries envC2 true
    (fun j hj => ⟨"ConnectionError", "boom", rfl, by decide⟩)
  exact ⟨⟨"ConnectionError", "boom", rfl, by decide⟩,
    ⟨"ConnectionError", "boom", rfl, by decide⟩, h.1, h.2.1⟩

/-- C3: a non-connection-class transport exception is escalated
immediately as RuntimeError, with no retry and no further report,
after exactly the k reports of the connection-class failures that
preceded it — including the case k = 0 of the very first attempt. -/
theorem C3_nonconnect_fatal (env : Nat → AttemptOutcome) (k : Nat)
    (name msg : String) (return_json : Bool) (hk : k ≤ 5)
    (hfail : ∀ j, j < k → connect_exc_at env j)
    (hexc : env k = .exc name msg)
    (hnc : connection_class name = false) :
    (get_request_with_retries env return_json).2 =
      .error (.runtimeError (name ++ ": " ++ msg))
    ∧ (get_request_with_retries env return_json).1.length = k := by
  obtain ⟨h2, h1⟩ := run_attempts_nonconnect env name msg k 0 6 (by omega)
    (fun j hj => by simpa using hfail j hj) (by simpa using hexc) hnc
  rw [get_eq_of_run_error env return_json _ h2]
  exact ⟨rfl, h1⟩

/-- C3 witness: the very first attempt raises ValueError. -/
def envC3 : Nat → AttemptOutcome := fun _ => .exc "ValueError" "bad value"

theorem C3_nonconnect_fatal_witness :
    connection_class "ValueError" = false ∧
      (get_request_with_retries envC3 true).2 = .error (.runtimeError "ValueError: bad value")
      ∧ (get_request_with_retries envC3 true).1.length = 0 := by
  have h := C3_nonconnect_fatal envC3 0 "ValueError" "bad value" true (by omega)
    (fun j hj => absurd hj (by omega)) rfl (by decide)
  exact ⟨by decide, h.1, h.2⟩

/-- C4: a transport response with status 404, with return_json true,
yields the exact synthetic not-found envelope without attempting to
decode the body, whatever the body decode would give. -/
theorem C4_not_found_envelope (env : Nat → AttemptOutcome) (r : Response)
    (h0 : env 0 = .resp r) (h404 : r.status_code = 404) :
    get_request_with_retries env true =
      ([], .ok (.json (.obj [("status", .str "error"), ("status_code", .nat 404),
                             ("error_message", .str "Data not found")]))) := by
  obtain ⟨h2, h1⟩ := run_attempts_succ env r 0 0 6 (by omega)
    (fun j hj => absurd hj (by omega)) (by simpa using h0)
  rw [get_eq_of_run_ok env true r h2]
  rw [List.length_eq_zero] at h1
  rw [h1]
  simp [process_response, h404, not_found_envelope]

theorem C4_not_found_envelope_witness :
    get_request_with_retries (fun _ => .resp ⟨404, .error "Expecting value"⟩) true =
      ([], .ok (.json (.obj [("status", .str "error"), ("status_code", .nat 404),
                             ("error_message", .str "Data not found")]))) :=
  C4_not_found_envelope (fun _ => .resp ⟨404, .error "Expecting value"⟩)
    ⟨404, .error "Expecting value"⟩ rfl rfl

/-- C5: a transport response whose status is neither 404 nor 429 and
whose body decode raises, with return_json true, does not raise: it
yields the synthetic exception envelope carrying the decode error. -/
theorem C5_decode_failure_envelope (env : Nat → AttemptOutcome) (r : Response)
    (msg : String) (h0 : env 0 = .resp r)
    (hn429 : r.status_code ≠ 429) (hn404 : r.status_code ≠ 404)
    (hdec : r.jsonBody = .error msg) :
    get_request_with_retries env true =
      ([], .ok (.json (.obj [("status", .str "exception"), ("status_code", .null),
                             ("error_message", .str msg)]))) := by
  obtain ⟨h2, h1⟩ := run_attempts_succ env r 0 0 6 (by omega)
    (fun j hj => absurd hj (by omega)) (by simpa using h0)
  rw [get_eq_of_run_ok env true r h2]
  rw [List.length_eq_zero] at h1
  rw [h1]
  simp [process_response, hn429, hn404, hdec, decode_failure_envelope]

theorem C5_decode_failure_envelope_witness :
    get_request_with_retries (fun _ => .resp ⟨500, .error "Expecting value"⟩) true =
      ([], .ok (.json (.obj [("status", .str "exception"), ("status_code", .null),
                             ("error_message", .str "Expecting value")]))) :=
  C5_decode_failure_envelope (fun _ => .resp ⟨500, .error "Expecting value"⟩)
    ⟨500, .error "Expecting value"⟩ "Expecting value" rfl (by decide) (by decide) rfl

/-- C6: with return_json false, any transport response is returned
raw and unchanged, whatever its status code or body, bypassing the
429, 404 and decode handling. -/
theorem C6_raw_response (env : Nat → AttemptOutcome) (r : Response)
    (h0 : env 0 = .resp r) :
    get_request_with_retries env false = ([], .ok (.raw r)) := by
  obtain ⟨h2, h1⟩ := run_attempts_succ env r 0 0 6 (by omega)
    (fun j hj => absurd hj (by omega)) (by simpa using h0)
  rw [get_eq_of_run_ok env false r h2]
  rw [List.length_eq_zero] at h1
  rw [h1]
  rfl

theorem C6_raw_response_witness :
    get_request_with_retries (fun _ => .resp ⟨429, .error "x"⟩) false =
      ([], .ok (.raw ⟨429, .error "x"⟩)) :=
  C6_raw_response (fun _ => .resp ⟨429, .error "x"⟩) ⟨429, .error "x"⟩ rfl

/-- C7: FreshPy construction raises MissingRequiredDataError whenever
domain or api_key is absent; otherwise it prefixes the default scheme
when the address lacks one, strips exactly one trailing separator when
present, appends "/api/v2/", and on "example.freshservice.com" yields
base address "https://example.freshservice.com/api/v2/". -/
theorem C7_init_normalization :
    (∀ domain api_key : Option String, truthy domain = false ∨ truthy api_key = false →
        freshpy_init domain api_key = .error (.missingRequiredData "init"))
    ∧ (∀ d k : String, d.toList.isEmpty = false → k.toList.isEmpty = false →
        freshpy_init (some d) (some k) =
          .ok { domain := spec_normalize_address d,
                base_url := spec_normalize_address d ++ "/api/v2/", api_key := k })
    ∧ freshpy_init (some "example.freshservice.com") (some "k1") =
        .ok { domain := "https://example.freshservice.com",
              base_url := "https://example.freshservice.com/api/v2/", api_key := "k1" } := by
  refine ⟨?absent, ?normal, ?concrete⟩
  case absent =>
    intro domain api_key h
    rcases h with h | h <;> simp [freshpy_init, h]
  case normal =>
    intro d k hd hk
    have hd' : d.data ≠ [] := by
      intro hnil
      rw [show d.toList = d.data from rfl, hnil] at hd
      simp at hd
    have hk' : k.data ≠ [] := by
      intro hnil
      rw [show k.toList = k.data from rfl, hnil] at hk
      simp at hk
    cases hs : str_starts_with d "http" <;>
      simp [freshpy_init, spec_normalize_address, truthy, hd, hk, hs, hd', hk']
  case concrete => rfl

theorem C7_init_normalization_witness :
    freshpy_init none (some "k1") = .error (.missingRequiredData "init")
    ∧ freshpy_init (some "example.freshservice.com/") (some "k1") =
        .ok { domain := "https://example.freshservice.com",
              base_url := "https://example.freshservice.com/api/v2/", api_key := "k1" } := by
  refine ⟨C7_init_normalization.1 none (some "k1") (Or.inl rfl), ?strip⟩
  have h := C7_init_normalization.2.1 "example.freshservice.com/" "k1" (by decide) (by decide)
  rw [h]
  rfl

/-- C8: on a 429 response with return_json true, the backoff line
delay = (5**i) + (random.random() * 5) reads the undefined variable i,
so the code raises NameError instead of computing the claimed
exponential-backoff delay, pausing, and decoding the body. -/
theorem C8_rate_limit_name_error :
    get_request_with_retries (fun _ => .resp ⟨429, .ok .null⟩) true =
      ([], .error (.nameError "i")) := by
  have h := run_attempts_succ (fun _ => .resp ⟨429, .ok .null⟩) ⟨429, .ok .null⟩ 0 0 6
    (by omega) (fun j hj => absurd hj (by omega)) rfl
  rw [get_eq_of_run_ok _ true _ h.1]
  rw [List.length_eq_zero] at *
  rw [h.2]
  rfl

/-- C9: an exception allows a retry (report_failed_attempt succeeds)
if and only if the lower-cased name of its type contains "connect";
any other exception, timeout types included, raises RuntimeError
combining the type name and the message. -/
theorem C9_connect_classification (name msg rt : String) (retries : Nat) :
    ((∃ rep, report_failed_attempt name msg rt retries = .ok rep) ↔
        str_contains (str_lower name) "connect" = true)
    ∧ (str_contains (str_lower name) "connect" = false →
        report_failed_attempt name msg rt retries =
          .error (.runtimeError (name ++ ": " ++ msg)))
    ∧ str_contains (str_lower "ReadTimeout") "connect" = false := by
  refine ⟨?iff, ?fatal, by decide⟩
  case iff =>
    constructor
    · intro ⟨rep, hrep⟩
      by_contra hc
      rw [Bool.not_eq_true] at hc
      rw [report_failed_attempt] at hrep
      simp [connection_class, hc] at hrep
    · intro hc
      rw [report_failed_attempt]
      simp only [connection_class, hc]
      exact ⟨_, rfl⟩
  case fatal =>
    intro hc
    rw [report_failed_attempt]
    simp [connection_class, hc]

theorem C9_connect_classification_witness :
    str_contains (str_lower "ReadTimeout") "connect" = false ∧
      report_failed_attempt "ReadTimeout" "timed out" "get" 0 =
        .error (.runtimeError "ReadTimeout: timed out") :=
  ⟨by decide, (C9_connect_classification "ReadTimeout" "timed out" "get" 0).2.1 (by decide)⟩

/-- C10: the j-th entry of the diagnostic report list (0-indexed),
whenever present, carries the text "(Attempt j of 5)": the k-th
consecutive connection-class failure, k starting at 1, is announced as
attempt k-1 of 5. -/
theorem C10_attempt_numbering (env : Nat → AttemptOutcome) (return_json : Bool)
    (j : Nat) (rep : String)
    (h : ((get_request_with_retries env return_json).1).get? j = some rep) :
    str_contains rep ("(Attempt " ++ toString j ++ " of 5)") = true := by
  rw [get_fst] at h
  have := run_attempts_report env 6 0 j rep h
  simpa using this

/-- C10 witness: one connection failure then a response; the first
report announces attempt 0 of 5. -/
def envC10 : Nat → AttemptOutcome := fun n =>
  if n = 0 then .exc "ConnectionError" "x" else .resp ⟨200, .ok .null⟩

theorem C10_attempt_numbering_witness :
    ((get_request_with_retries envC10 false).1).get? 0 =
      some "The GET request has failed with the following exception: ConnectionError: x (Attempt 0 of 5)\nConnectionError: x\n"
    ∧ str_contains
        "The GET request has failed with the following exception: ConnectionError: x (Attempt 0 of 5)\nConnectionError: x\n"
        ("(Attempt " ++ toString 0 ++ " of 5)") = true := by
  refine ⟨?rep, ?num⟩
  case rep => rfl
  case num =>
    exact C10_attempt_numbering envC10 false 0
      "The GET request has failed with the following exception: ConnectionError: x (Attempt 0 of 5)\nConnectionError: x\n"
      (by rfl)

end FreshPy
